import Mathlib

/-!
Verification development for the kdt-placer repository.

The development shallowly embeds the two core modules:
* `json_parser.py` — schema-tolerant extraction of key records from a
  JSON-like document (`find_nodes`, `parse_node`, `parse_kdt_data`,
  `validate_json_structure`);
* `footprint_placer.py` — the rotation-aware placement engine
  (`rotate_offset`, `mm_to_nm`, `FootprintPlacer.place_keys`,
  `FootprintPlacer._place_component`, `FootprintPlacer._categorize_result`).

Modelling conventions:
* Python floats are modelled as exact numbers: rationals in the parser
  (JSON numeric literals are exact decimals) and reals in the placement
  engine (where trigonometry appears).  Floating-point rounding is not the
  subject of any claim.
* A raised Python exception inside a per-node helper is modelled as
  `Option.none` / a dedicated `raised` constructor.
* Python dictionaries are modelled as association lists; documents coming
  from `json.load` have duplicate-free key lists, so first-match lookup
  agrees with Python's dictionaries on all representable inputs.
-/

/-! ### Python string primitives

`str.replace` and the `in` substring test are re-implemented on character
lists so that every definition is executable and kernel-reducible. -/

/-- `listStartsWith l pat` is true when `pat` is a prefix of `l`. -/
def listStartsWith : List Char → List Char → Bool
  | _, [] => true
  | [], _ :: _ => false
  | a :: as, b :: bs => a = b && listStartsWith as bs

/-- `containsSub l pat` is true when `pat` occurs contiguously inside `l`
(Python's `pat in l` on strings). -/
def containsSub : List Char → List Char → Bool
  | [], pat => pat.isEmpty
  | a :: as, pat => listStartsWith (a :: as) pat || containsSub as pat

/-- Python's `pat in s` substring test. -/
def strContains (s pat : String) : Bool :=
  containsSub s.data pat.data

/-- One fuel-indexed step of Python's `str.replace`: replace every
non-overlapping occurrence of `pat` by `rep`, scanning left to right and
resuming after each replacement.  The fuel is always instantiated with the
length of the input, which each step strictly consumes, so the `0` branch
is unreachable; it keeps the recursion structural (hence kernel-reducible). -/
def replFuel (pat rep : List Char) : Nat → List Char → List Char
  | _, [] => []
  | 0, l => l
  | fuel + 1, a :: as =>
    if listStartsWith (a :: as) pat && !pat.isEmpty then
      rep ++ replFuel pat rep fuel (List.drop (pat.length - 1) as)
    else
      a :: replFuel pat rep fuel as

/-- Python's `s.replace(pat, rep)` for a non-empty pattern.  (For the empty
pattern Python interleaves `rep` between all characters; the engine only
ever replaces the non-empty marker `"\x7b\x7d"`, so that case is mapped to
the identity.) -/
def pyReplace (s pat rep : String) : String :=
  ⟨replFuel pat.data rep.data s.data.length s.data⟩

/-- The substitution marker used in annotation patterns (`"SW\x7b\x7d"` etc.). -/
def substMarker : String := "\x7b\x7d"

theorem strContains_iff (s pat : String) :
    strContains s pat = true ↔ containsSub s.data pat.data = true := Iff.rfl

theorem string_data_append (s t : String) : (s ++ t).data = s.data ++ t.data := rfl

theorem listStartsWith_append (l pat ext : List Char)
    (h : listStartsWith l pat = true) : listStartsWith (l ++ ext) pat = true := by
  induction l generalizing pat with
  | nil => cases pat with
    | nil => simp [listStartsWith]
    | cons b bs => simp [listStartsWith] at h
  | cons a as ih =>
    cases pat with
    | nil => simp [listStartsWith]
    | cons b bs =>
      simp [listStartsWith] at h ⊢
      exact ⟨h.1, ih bs h.2⟩

/-- If the pattern occurs in `l`, it still occurs after appending on the right. -/
theorem containsSub_append_right (l ext pat : List Char)
    (h : containsSub l pat = true) : containsSub (l ++ ext) pat = true := by
  induction l with
  | nil =>
    simp [containsSub] at h
    cases pat with
    | nil => cases ext with
      | nil => simp [containsSub]
      | cons e es => simp [containsSub, listStartsWith]
    | cons b bs => simp [List.isEmpty] at h
  | cons a as ih =>
    simp only [containsSub, Bool.or_eq_true] at h
    rcases h with h | h
    · simp only [List.cons_append, containsSub, Bool.or_eq_true]
      exact Or.inl (by
        have := listStartsWith_append (a :: as) pat ext h
        simpa using this)
    · simp only [List.cons_append, containsSub, Bool.or_eq_true]
      exact Or.inr (ih h)

/-- If the pattern occurs in `l`, it still occurs after prepending on the left. -/
theorem containsSub_append_left (ext l pat : List Char)
    (h : containsSub l pat = true) : containsSub (ext ++ l) pat = true := by
  induction ext with
  | nil => simpa using h
  | cons a as ih =>
    simp only [List.cons_append, containsSub, Bool.or_eq_true]
    exact Or.inr ih

theorem strContains_append_left (pre s pat : String)
    (h : strContains s pat = true) : strContains (pre ++ s) pat = true := by
  have : containsSub (pre.data ++ s.data) pat.data = true :=
    containsSub_append_left pre.data s.data pat.data h
  simpa [strContains, string_data_append] using this

theorem strContains_append_right (s ext pat : String)
    (h : strContains s pat = true) : strContains (s ++ ext) pat = true := by
  have : containsSub (s.data ++ ext.data) pat.data = true :=
    containsSub_append_right s.data ext.data pat.data h
  simpa [strContains, string_data_append] using this

/-! ### JSON documents

`Json` models the JSON-compatible trees produced by `json.load`.  Numbers
are rationals (JSON numeric literals are exact decimals; Python `int` and
`float` are conflated, which no claim distinguishes). -/

inductive Json where
  | null : Json
  | bool (b : Bool) : Json
  | num (q : ℚ) : Json
  | str (s : String) : Json
  | arr (items : List Json) : Json
  | obj (fields : List (String × Json)) : Json

/-- First-match lookup in an object's field list (Python dictionaries have
unique keys after `json.load`, so first-match equals dictionary lookup). -/
def lookupField : List (String × Json) → String → Option Json
  | [], _ => none
  | (k', v) :: rest, k => if k' = k then some v else lookupField rest k

/-- `type(v).__name__` as interpolated into error messages.  Python keeps
`int` and `float` apart; the model renders every number as `"float"` (no
claim inspects this text). -/
def pyTypeName : Json → String
  | .null => "NoneType"
  | .bool _ => "bool"
  | .num _ => "float"
  | .str _ => "str"
  | .arr _ => "list"
  | .obj _ => "dict"

/-- Python `==` between the string `k` and an arbitrary value (used by
membership tests on lists): equal only to the equal string. -/
def eqStrJson (k : String) : Json → Bool
  | .str s => k = s
  | _ => false

/-- Python's `k in v` for a string `k`: key membership for dictionaries,
element membership for lists, substring for strings; raises `TypeError`
(modelled `none`) for every other type. -/
def pyIn (k : String) : Json → Option Bool
  | .obj fields => some (fields.any fun p => p.1 = k)
  | .arr items => some (items.any (eqStrJson k))
  | .str s => some (strContains s k)
  | _ => none

/-- Python's `v[k]` for a string key `k`: only dictionaries support string
indexing (`KeyError` on a missing key and `TypeError` on any other type
are both modelled as `none`; the sources only index keys whose presence
was just tested). -/
def getItem : Json → String → Option Json
  | .obj fields, k => lookupField fields k
  | _, _ => none

/-- Python's `v.get(k, default)`: defined on dictionaries, `AttributeError`
(modelled `none`) on every other type. -/
def pyGet (v : Json) (k : String) (default : Json) : Option Json :=
  match v with
  | .obj fields => some ((lookupField fields k).getD default)
  | _ => none

/-- Python's `float(v)`: numbers coerce to themselves, booleans to 0/1;
`None`, lists and dictionaries raise (modelled `none`).  Numeric strings
(`float("3.5")`) also coerce in Python; that case is not modelled and no
claim or concrete input below relies on a string-valued numeric field. -/
def asFloat : Json → Option ℚ
  | .num q => some q
  | .bool b => some (if b then 1 else 0)
  | _ => none

/-- `float(v.get(k, default))` — the parser's field accessor. -/
def getFloat (v : Json) (k : String) (default : ℚ) : Option ℚ :=
  (pyGet v k (.num default)).bind asFloat

/-- Python's `str(v)` for the label.  String labels render as themselves;
non-string labels use a best-effort rendering of Python's `str` (numeric
and container rendering differs textually from Python; no claim inspects
the rendering of a non-string label). -/
def pyStr : Json → String
  | .str s => s
  | .bool b => if b then "True" else "False"
  | .null => "None"
  | .num q => toString q
  | .arr _ => "[...]"
  | .obj _ => "{...}"

/-! ### `json_parser.KeyData` and `parse_node` -/

/-- `json_parser.KeyData`. -/
structure KeyData where
  label : String
  center_x : ℚ
  center_y : ℚ
  width_u : ℚ
  height_u : ℚ
  rotation : ℚ
  rotation_origin_x : ℚ
  rotation_origin_y : ℚ
deriving DecidableEq

/-- Outcome of `parse_node` on one node: a raised Python exception, a
silent omission (`return None`), or a parsed key. -/
inductive NodeOut where
  | raised : NodeOut
  | skipped : NodeOut
  | key (k : KeyData) : NodeOut
deriving DecidableEq

/-- Python's `label is None` identity test (an absent `label` and an
explicit JSON `null` both surface as Python `None` from `data.get`). -/
def isNull : Json → Bool
  | .null => true
  | _ => false

/-- `json_parser.parse_node`, line for line: the two membership guards, the
position/data projections, the pixel-coordinate coercions (with defaults
`x = y = 0`, `width = height = 60`), the center computation, the label
guard (`data.get('label')` is `None` both for an absent and a null label),
and the remaining coercions (defaults `widthU = heightU = 1`,
`rotation = 0`, `rotationOriginX = rotationOriginY = 0.5`). -/
def parse_node (node : Json) : NodeOut :=
  match pyIn "position" node with
  | none => .raised
  | some false => .skipped
  | some true =>
    match pyIn "data" node with
    | none => .raised
    | some false => .skipped
    | some true =>
      match getItem node "position" with
      | none => .raised
      | some position =>
        match getItem node "data" with
        | none => .raised
        | some data =>
          match getFloat position "x" 0 with
          | none => .raised
          | some x =>
            match getFloat position "y" 0 with
            | none => .raised
            | some y =>
              match getFloat node "width" 60 with
              | none => .raised
              | some width_px =>
                match getFloat node "height" 60 with
                | none => .raised
                | some height_px =>
                  let center_x := x + width_px / 2
                  let center_y := y + height_px / 2
                  match pyGet data "label" Json.null with
                  | none => .raised
                  | some labelVal =>
                    if isNull labelVal then .skipped
                    else
                    let label := pyStr labelVal
                    match getFloat data "widthU" 1 with
                    | none => .raised
                    | some width_u =>
                      match getFloat data "heightU" 1 with
                      | none => .raised
                      | some height_u =>
                        match getFloat data "rotation" 0 with
                        | none => .raised
                        | some rotation =>
                          match getFloat data "rotationOriginX" (1/2) with
                          | none => .raised
                          | some rox =>
                            match getFloat data "rotationOriginY" (1/2) with
                            | none => .raised
                            | some roy =>
                              .key ⟨label, center_x, center_y, width_u,
                                    height_u, rotation, rox, roy⟩

/-! ### `find_nodes` and the extraction entry point -/

/-- The failure modes of extraction.  `badRoot` and `noNodes` are the two
`ValueError`s raised by `find_nodes` (the spec's `StructureError`),
carrying exactly the data Python interpolates into the message; `typeError`
models an uncaught per-node exception escaping `parse_node`. -/
inductive ExtractError where
  | badRoot (typeName : String) : ExtractError
  | noNodes (availableKeys : List String) : ExtractError
  | typeError : ExtractError
deriving DecidableEq

/-- `json_parser.find_nodes`: an array root is returned as-is; an object
root is probed for `layout.nodes` (field `layout` present, holding a
dictionary whose `nodes` field is a list) and then for a flat `nodes`
list; any other root raises immediately.  Every failed probe falls
through to the next; exhaustion raises a `ValueError` listing the
top-level keys. -/
def find_nodes (data : Json) : Except ExtractError (List Json) :=
  match data with
  | .arr items => .ok items
  | .obj fields =>
    match lookupField fields "layout" with
    | some (.obj lfields) =>
      match lookupField lfields "nodes" with
      | some (.arr ns) => .ok ns
      | _ =>
        match lookupField fields "nodes" with
        | some (.arr ns) => .ok ns
        | _ => .error (.noNodes (fields.map Prod.fst))
    | _ =>
      match lookupField fields "nodes" with
      | some (.arr ns) => .ok ns
      | _ => .error (.noNodes (fields.map Prod.fst))
  | other => .error (.badRoot (pyTypeName other))

/-- The node loop of `parse_kdt_data`: keys of valid nodes in order,
invalid nodes skipped, a raised per-node exception aborting the whole
extraction (discarding earlier keys, as an uncaught exception does). -/
def parse_nodes : List Json → Except ExtractError (List KeyData)
  | [] => .ok []
  | n :: ns =>
    match parse_node n with
    | .raised => .error .typeError
    | .skipped => parse_nodes ns
    | .key k => (parse_nodes ns).map (k :: ·)

/-- `json_parser.parse_kdt_data`. -/
def parse_kdt_data (data : Json) : Except ExtractError (List KeyData) :=
  match find_nodes data with
  | .error e => .error e
  | .ok nodes => parse_nodes nodes

/-! ### Document-shape matchers

The three accepted document shapes, written as predicate/extractor pairs
following the spec's description of the resolution order; the claim about
`find_nodes` is settled against the ordered first-match over these. -/

/-- Shape (1): the document itself is already the node array. -/
def shapeRootArray : Json → Option (List Json)
  | .arr items => some items
  | _ => none

/-- Shape (2): a node array nested one level down, reachable via the
first-level field `layout` holding a dictionary with a `nodes` list. -/
def shapeNested : Json → Option (List Json)
  | .obj fields =>
    match lookupField fields "layout" with
    | some (.obj lfields) =>
      match lookupField lfields "nodes" with
      | some (.arr ns) => some ns
      | _ => none
    | _ => none
  | _ => none

/-- Shape (3): a node array held directly by the first-level field `nodes`. -/
def shapeFlat : Json → Option (List Json)
  | .obj fields =>
    match lookupField fields "nodes" with
    | some (.arr ns) => some ns
    | _ => none
  | _ => none

/-! ### `validate_json_structure`

The source function opens and JSON-decodes a file before inspecting the
document; file access and JSON decoding are host I/O, so the embedding
models the function from the decoded document on (lines 192-231 of
`json_parser.py`).  `none` models an uncaught exception raised while
scanning a malformed node. -/

/-- Python's `repr` of a list of strings, as interpolated into f-strings
(`['a', 'b']`). -/
def pyReprStrList (ks : List String) : String :=
  "[" ++ String.intercalate ", " (ks.map fun k => "'" ++ k ++ "'") ++ "]"

/-- `str(e)` for the two `ValueError`s raised by `find_nodes`
(`typeError` never reaches this renderer). -/
def structureErrorMessage : ExtractError → String
  | .badRoot t => "Expected JSON object or array, got " ++ t
  | .noNodes ks =>
    "Could not find nodes array in JSON. Tried: 'layout.nodes', 'nodes'. " ++
      "Available top-level keys: " ++ pyReprStrList ks
  | .typeError => ""

/-- `f"\x7btype(node)\x7d"` — Python renders `<class 'int'>`; see
`pyTypeName` for the number conflation. -/
def pyTypeRepr (v : Json) : String :=
  "<class '" ++ pyTypeName v ++ "'>"

/-- The three per-node probes of the validation scan:
`'position' in node`, `'data' in node`, and
`'label' in node.get('data', \x7b\x7d) if has_data else False`.
Returns `none` when one of them raises. -/
def validateProbe (node : Json) : Option (Bool × Bool × Bool) :=
  match pyIn "position" node with
  | none => none
  | some has_position =>
    match pyIn "data" node with
    | none => none
    | some has_data =>
      if has_data then
        match pyGet node "data" (.obj []) with
        | none => none
        | some dv =>
          match pyIn "label" dv with
          | none => none
          | some has_label => some (has_position, has_data, has_label)
      else
        some (has_position, has_data, false)

/-- The issue line `f"Node \x7bi\x7d: keys=..., data_keys=..."` recorded for
an invalid node among the first three.  Returns `none` when
`node.get('data', \x7b\x7d).keys()` raises (`data` bound to a non-dictionary). -/
def nodeIssue (i : Nat) (node : Json) (has_data : Bool) : Option String :=
  let node_keys :=
    match node with
    | .obj fs => pyReprStrList (fs.map Prod.fst)
    | _ => "not a dict: " ++ pyTypeRepr node
  let data_keys? : Option String :=
    if has_data then
      match pyGet node "data" (.obj []) with
      | some (.obj dfs) => some (pyReprStrList (dfs.map Prod.fst))
      | _ => none
    else
      some "no data"
  match data_keys? with
  | none => none
  | some data_keys =>
    some ("Node " ++ toString i ++ ": keys=" ++ node_keys ++
          ", data_keys=" ++ data_keys)

/-- The debug scan over `nodes[:5]` (enumerated from `i`), threading the
valid-key count and the issue lines for invalid nodes with `i < 3`. -/
def validateFirst (i : Nat) (acc : Nat × List String) :
    List Json → Option (Nat × List String)
  | [] => some acc
  | node :: rest =>
    match validateProbe node with
    | none => none
    | some (has_position, has_data, has_label) =>
      if has_position && has_data && has_label then
        validateFirst (i + 1) (acc.1 + 1, acc.2) rest
      else if i < 3 then
        match nodeIssue i node has_data with
        | none => none
        | some issue => validateFirst (i + 1) (acc.1, acc.2 ++ [issue]) rest
      else
        validateFirst (i + 1) acc rest

/-- The counting loop over `nodes[5:]` (short-circuit `and`, as in the
source: once a membership test fails the remaining probes are skipped). -/
def countRest (valid : Nat) : List Json → Option Nat
  | [] => some valid
  | node :: rest =>
    match pyIn "position" node with
    | none => none
    | some false => countRest valid rest
    | some true =>
      match pyIn "data" node with
      | none => none
      | some false => countRest valid rest
      | some true =>
        match pyGet node "data" (.obj []) with
        | none => none
        | some dv =>
          match pyIn "label" dv with
          | none => none
          | some false => countRest valid rest
          | some true => countRest (valid + 1) rest

/-- The `debug_info` string of the zero-valid-keys branch. -/
def debugInfo (total : Nat) (issues : List String) : String :=
  "Found " ++ toString total ++ " nodes total. " ++
    (if issues.isEmpty then "" else "Issues: " ++ String.intercalate "; " issues)

/-- `json_parser.validate_json_structure` from the decoded document on.
(The `isinstance(nodes, list)` re-check after `find_nodes` is vacuous —
`find_nodes` only ever returns lists — and is therefore not represented.) -/
def validate_json_structure_data (data : Json) : Option (Bool × String) :=
  match find_nodes data with
  | .error e => some (false, structureErrorMessage e)
  | .ok nodes =>
    if nodes.length = 0 then
      some (false, "No nodes found in layout")
    else
      match validateFirst 0 (0, []) (nodes.take 5) with
      | none => none
      | some (vk, issues) =>
        match countRest vk (nodes.drop 5) with
        | none => none
        | some valid_keys =>
          if valid_keys = 0 then
            some (false, "No valid key nodes found. " ++
                           debugInfo nodes.length issues)
          else
            some (true, "Valid JSON with " ++ toString valid_keys ++ " keys")

/-! ### `footprint_placer` data model

The host board (`pcbnew`) is external: the engine only resolves a
footprint by reference and mutates it.  A footprint carries its position
in the host's internal integer unit (nanometres), its absolute
orientation in degrees, and its copper layer.  The board is an
association list of footprints together with an oracle `raiseOn` giving,
per reference, the point inside the mutation sequence at which the host
raises and the exception text (`none` = all mutations succeed).  The
source's `try` block mutates stepwise — `SetPosition`, then
`SetOrientation`, then the layer test/flip — so a raise can leave the
target partially mutated; the stage records which host call failed and
the mutations before it are applied. -/

inductive Layer where
  | FCu : Layer
  | BCu : Layer
deriving DecidableEq

structure Footprint where
  posX : ℤ
  posY : ℤ
  orientation : ℝ
  layer : Layer

/-- `footprint_placer.ComponentConfig` (defaults as in the dataclass). -/
structure ComponentConfig where
  name : String
  annotation_pattern : String
  x_offset_mm : ℝ := 0
  y_offset_mm : ℝ := 0
  orientation_deg : ℝ := 0
  pcb_side : String := "Top"
  enabled : Bool := true

/-- `footprint_placer.PlacementResult`. -/
structure PlacementResult where
  reference : String
  success : Bool
  message : String

/-- `footprint_placer.PlacementSummary`. -/
structure PlacementSummary where
  total_keys : Nat
  placed : List PlacementResult
  missing : List PlacementResult
  errors : List PlacementResult

/-- The host call inside the `try` block at which an exception is raised:
at the position write (`VECTOR2I`/`SetPosition`, nothing mutated yet), at
the orientation write (`EDA_ANGLE`/`SetOrientation`, position already
set), or at the layer handling (`GetLayer`/`Flip`, position and
orientation already set). -/
inductive MutationStage where
  | atPosition : MutationStage
  | atOrientation : MutationStage
  | atLayer : MutationStage
deriving DecidableEq

structure Board where
  footprints : List (String × Footprint)
  raiseOn : String → Option (MutationStage × String)

/-- `board.FindFootprintByReference`. -/
def findFootprint (board : Board) (reference : String) : Option Footprint :=
  match board.footprints.find? (fun p => p.1 = reference) with
  | some p => some p.2
  | none => none

/-- Replace the footprint stored under `reference`. -/
def setFootprint (board : Board) (reference : String) (fp : Footprint) : Board :=
  { board with
    footprints := board.footprints.map fun p => if p.1 = reference then (p.1, fp) else p }

/-! ### Transform primitives -/

/-- `footprint_placer.rotate_offset`: standard 2D rotation of an offset by
`angle_deg` degrees (`math.radians` is `· * π / 180`). -/
noncomputable def rotate_offset (x_offset y_offset angle_deg : ℝ) : ℝ × ℝ :=
  let angle_rad := angle_deg * (Real.pi / 180)
  let cos_a := Real.cos angle_rad
  let sin_a := Real.sin angle_rad
  (x_offset * cos_a - y_offset * sin_a, x_offset * sin_a + y_offset * cos_a)

/-- `footprint_placer.mm_to_nm`: `int(mm * 1_000_000)` — Python's `int`
truncates toward zero. -/
noncomputable def mm_to_nm (mm : ℝ) : ℤ :=
  if 0 ≤ mm * 1000000 then ⌊mm * 1000000⌋ else ⌈mm * 1000000⌉

/-- `fp.Flip(fp.GetPosition(), False)`: mirrors the layer in place without
translating (the spec's flip capability: layer change only). -/
def flipFootprint (fp : Footprint) : Footprint :=
  { fp with layer := match fp.layer with | .FCu => .BCu | .BCu => .FCu }

/-- `footprint_placer.ensure_on_front`. -/
def ensure_on_front (fp : Footprint) : Footprint × Bool :=
  if fp.layer = .BCu then (flipFootprint fp, true) else (fp, false)

/-- `footprint_placer.ensure_on_back`. -/
def ensure_on_back (fp : Footprint) : Footprint × Bool :=
  if fp.layer = .FCu then (flipFootprint fp, true) else (fp, false)

/-- Stand-in for Python's decimal rendering of a float in the success
message (`:.2f` and the default `str`); the digits themselves are beyond
the embedding and no claim inspects them. -/
def floatFmt (_x : ℝ) : String := ""

/-- Python float division: `a / b`, raising `ZeroDivisionError` ("float
division by zero") when the divisor is zero — unlike Lean's total real
division. -/
noncomputable def pyDiv (a b : ℝ) : Except String ℝ :=
  if b = 0 then .error "float division by zero" else .ok (a / b)

/-! ### `FootprintPlacer._place_component` and the summary loop -/

/-- `FootprintPlacer._place_component`: build the reference by substituting
the key's label for the marker, resolve it on the board (recording the
missing-target result on failure), then — inside the host `try` block —
rotate the offset by the negated key rotation, set the position (converted
to internal units), set the absolute orientation
`config.orientation_deg - key.rotation`, and force the configured side.
A host exception (oracle `raiseOn`) yields the error-text result; the
mutations preceding the failing host call remain applied, so the target
may be left partially mutated, exactly as the source's stepwise `try`
block allows. -/
noncomputable def place_component (board : Board) (key : KeyData)
    (config : ComponentConfig)
    (base_x_mm base_y_mm x_offset_mm y_offset_mm : ℝ) :
    PlacementResult × Board :=
  let reference := pyReplace config.annotation_pattern substMarker key.label
  match findFootprint board reference with
  | none =>
    (⟨reference, false, "Footprint not found: " ++ reference⟩, board)
  | some fp =>
    let r := rotate_offset x_offset_mm y_offset_mm (-(key.rotation : ℝ))
    let final_x_mm := base_x_mm + r.1
    let final_y_mm := base_y_mm + r.2
    let fp1 := { fp with posX := mm_to_nm final_x_mm, posY := mm_to_nm final_y_mm }
    let total_rotation := config.orientation_deg - (key.rotation : ℝ)
    let fp2 := { fp1 with orientation := total_rotation }
    match board.raiseOn reference with
    | some (.atPosition, e) =>
      (⟨reference, false, "Error placing " ++ reference ++ ": " ++ e⟩, board)
    | some (.atOrientation, e) =>
      (⟨reference, false, "Error placing " ++ reference ++ ": " ++ e⟩,
       setFootprint board reference fp1)
    | some (.atLayer, e) =>
      (⟨reference, false, "Error placing " ++ reference ++ ": " ++ e⟩,
       setFootprint board reference fp2)
    | none =>
      let fp3 :=
        if config.pcb_side = "Bottom" then (ensure_on_back fp2).1
        else (ensure_on_front fp2).1
      (⟨reference, true,
        "Placed at (" ++ floatFmt final_x_mm ++ ", " ++ floatFmt final_y_mm ++
          ") mm, " ++ floatFmt total_rotation ++ "°"⟩,
       setFootprint board reference fp3)

/-- `FootprintPlacer._categorize_result`: success goes to `placed`; a
failure whose message contains `"not found"` goes to `missing`; every
other failure goes to `errors`. -/
def categorize_result (result : PlacementResult)
    (placed missing errors : List PlacementResult) :
    List PlacementResult × List PlacementResult × List PlacementResult :=
  if result.success then (placed ++ [result], missing, errors)
  else if strContains result.message "not found" then
    (placed, missing ++ [result], errors)
  else (placed, missing, errors ++ [result])

/-- The engine's running state: the three outcome lists and the board. -/
structure PlaceState where
  placed : List PlacementResult
  missing : List PlacementResult
  errors : List PlacementResult
  board : Board

/-- One `(key, rule)` attempt of `place_keys`: place the component and
file the result. -/
noncomputable def stepPlace (st : PlaceState) (key : KeyData)
    (config : ComponentConfig) (x_mm y_mm ox oy : ℝ) : PlaceState :=
  let rb := place_component st.board key config x_mm y_mm ox oy
  let cat := categorize_result rb.1 st.placed st.missing st.errors
  ⟨cat.1, cat.2.1, cat.2.2, rb.2⟩

/-- The per-rule attempts of `place_keys`'s loop body for one key, at the
already-computed base position `(x_mm, y_mm)`: the switch rule with
**literal zero offsets**, the diode rule with its configured offsets,
then each enabled additional rule with its configured offsets. -/
noncomputable def place_rules (switch_config : ComponentConfig)
    (diode_config : Option ComponentConfig)
    (additional_configs : List ComponentConfig)
    (x_mm y_mm : ℝ) (st : PlaceState) (key : KeyData) : PlaceState :=
  let st1 :=
    if switch_config.enabled then stepPlace st key switch_config x_mm y_mm 0 0
    else st
  let st2 :=
    match diode_config with
    | some dc =>
      if dc.enabled then stepPlace st1 key dc x_mm y_mm dc.x_offset_mm dc.y_offset_mm
      else st1
    | none => st1
  additional_configs.foldl
    (fun s config =>
      if config.enabled then
        stepPlace s key config x_mm y_mm config.x_offset_mm config.y_offset_mm
      else s)
    st2

/-- The body of `place_keys`'s outer loop for one key: the base-position
divisions `key.center / ref_unit_px` raise `ZeroDivisionError` when
`ref_unit_px` is zero — uncaught, so the exception escapes the whole run
— and otherwise every enabled rule is attempted at the scaled, shifted
base. -/
noncomputable def place_for_key (switch_config : ComponentConfig)
    (diode_config : Option ComponentConfig)
    (additional_configs : List ComponentConfig)
    (step_x_mm step_y_mm ref_unit_px offset_x_mm offset_y_mm : ℝ)
    (st : PlaceState) (key : KeyData) : Except String PlaceState :=
  match pyDiv (key.center_x : ℝ) ref_unit_px with
  | .error e => .error e
  | .ok qx =>
    match pyDiv (key.center_y : ℝ) ref_unit_px with
    | .error e => .error e
    | .ok qy =>
      .ok (place_rules switch_config diode_config additional_configs
        (qx * step_x_mm + offset_x_mm) (qy * step_y_mm + offset_y_mm) st key)

/-- `FootprintPlacer.place_keys`: the per-key loop threaded through
`Except` — a raised `ZeroDivisionError` propagates out, any other
per-attempt failure is recorded in the summary. -/
noncomputable def place_keys (board : Board) (keys : List KeyData)
    (switch_config : ComponentConfig) (diode_config : Option ComponentConfig)
    (additional_configs : List ComponentConfig)
    (step_x_mm step_y_mm ref_unit_px offset_x_mm offset_y_mm : ℝ) :
    Except String (PlacementSummary × Board) :=
  match keys.foldlM
    (place_for_key switch_config diode_config additional_configs
      step_x_mm step_y_mm ref_unit_px offset_x_mm offset_y_mm)
    ⟨[], [], [], board⟩ with
  | .error e => .error e
  | .ok fin => .ok (⟨keys.length, fin.placed, fin.missing, fin.errors⟩, fin.board)

/-- Number of enabled rules, i.e. of `(key, rule)` attempts per key. -/
def rulesCount (sw : ComponentConfig) (dc : Option ComponentConfig)
    (ac : List ComponentConfig) : Nat :=
  (if sw.enabled then 1 else 0) +
    (match dc with | some d => if d.enabled then 1 else 0 | none => 0) +
    ac.countP (fun c => c.enabled)

/-- Total number of recorded outcomes in a state. -/
def outcomeCount (st : PlaceState) : Nat :=
  st.placed.length + st.missing.length + st.errors.length

/-! ### Helper lemmas -/

theorem rotate_offset_zero_offset (θ : ℝ) : rotate_offset 0 0 θ = (0, 0) := by
  simp [rotate_offset]

theorem rotate_offset_zero_angle (x y : ℝ) : rotate_offset x y 0 = (x, y) := by
  simp [rotate_offset]

theorem mm_to_nm_intCast (n : ℤ) : mm_to_nm (n : ℝ) = n * 1000000 := by
  have h : ((n : ℝ)) * 1000000 = ((n * 1000000 : ℤ) : ℝ) := by push_cast; ring
  have hf : ⌊((n : ℝ)) * 1000000⌋ = n * 1000000 := by rw [h]; exact Int.floor_intCast _
  have hc : ⌈((n : ℝ)) * 1000000⌉ = n * 1000000 := by rw [h]; exact Int.ceil_intCast _
  unfold mm_to_nm
  split
  · exact hf
  · exact hc

theorem parse_nodes_error_eq (ns : List Json) (e : ExtractError)
    (h : parse_nodes ns = .error e) : e = .typeError := by
  induction ns with
  | nil => simp [parse_nodes] at h
  | cons n rest ih =>
    simp only [parse_nodes] at h
    rcases hpn : parse_node n with _ | _ | k <;> rw [hpn] at h
    · simpa using h.symm
    · exact ih h
    · rcases hr : parse_nodes rest with e' | ks
      · rw [hr] at h
        simp only [Except.map] at h
        injection h with h2
        subst h2
        exact ih hr
      · rw [hr] at h
        simp [Except.map] at h

theorem categorize_count (r : PlacementResult) (p m e : List PlacementResult) :
    (categorize_result r p m e).1.length + (categorize_result r p m e).2.1.length +
      (categorize_result r p m e).2.2.length = p.length + m.length + e.length + 1 := by
  unfold categorize_result
  split
  · simp; omega
  · split <;> simp <;> omega

theorem stepPlace_count (st : PlaceState) (key : KeyData) (config : ComponentConfig)
    (x y ox oy : ℝ) :
    outcomeCount (stepPlace st key config x y ox oy) = outcomeCount st + 1 := by
  unfold stepPlace outcomeCount
  exact categorize_count _ _ _ _

theorem foldl_additional_count (key : KeyData) (x y : ℝ)
    (ac : List ComponentConfig) (st : PlaceState) :
    outcomeCount (ac.foldl
      (fun s config =>
        if config.enabled then
          stepPlace s key config x y config.x_offset_mm config.y_offset_mm
        else s) st) = outcomeCount st + ac.countP (fun c => c.enabled) := by
  induction ac generalizing st with
  | nil => simp
  | cons c rest ih =>
    simp only [List.foldl_cons, List.countP_cons]
    rcases hc : c.enabled with _ | _
    · simp [hc, ih st]
    · simp [hc, ih, stepPlace_count]
      omega

theorem place_rules_count (sw : ComponentConfig) (dc : Option ComponentConfig)
    (ac : List ComponentConfig) (x y : ℝ) (st : PlaceState) (key : KeyData) :
    outcomeCount (place_rules sw dc ac x y st key) =
      outcomeCount st + rulesCount sw dc ac := by
  simp only [place_rules, rulesCount]
  rw [foldl_additional_count]
  rcases dc with _ | d
  · rcases hsw : sw.enabled with _ | _
    · simp [hsw, stepPlace_count]
    · simp [hsw, stepPlace_count]
      omega
  · rcases hsw : sw.enabled with _ | _ <;> rcases hd : d.enabled with _ | _ <;>
      simp [hsw, hd, stepPlace_count] <;> try omega

theorem pyDiv_ne_zero (a b : ℝ) (hb : b ≠ 0) : pyDiv a b = .ok (a / b) := by
  simp [pyDiv, hb]

theorem pyDiv_zero_divisor (a : ℝ) : pyDiv a 0 = .error "float division by zero" := by
  simp [pyDiv]

theorem except_ok_bind {ε α β : Type} (a : α) (g : α → Except ε β) :
    (Except.ok a >>= g) = g a := rfl

theorem exceptBind_ok {ε α β : Type} (x : Except ε α) (g : α → Except ε β)
    (b : β) (h : (x >>= g) = .ok b) : ∃ a, x = .ok a ∧ g a = .ok b := by
  cases x with
  | error e => simp [Bind.bind, Except.bind] at h
  | ok a => exact ⟨a, rfl, by simpa [Bind.bind, Except.bind] using h⟩

/-- With a nonzero reference unit the per-key body never raises: it is the
per-rule attempts at the scaled base. -/
theorem place_for_key_ru_ne (sw : ComponentConfig) (dc : Option ComponentConfig)
    (ac : List ComponentConfig) (sx sy ru ox oy : ℝ) (st : PlaceState)
    (key : KeyData) (hru : ru ≠ 0) :
    place_for_key sw dc ac sx sy ru ox oy st key =
      .ok (place_rules sw dc ac
        (((key.center_x : ℝ) / ru) * sx + ox)
        (((key.center_y : ℝ) / ru) * sy + oy) st key) := by
  simp [place_for_key, pyDiv_ne_zero _ _ hru]

/-- With a zero reference unit the per-key body raises `ZeroDivisionError`. -/
theorem place_for_key_zero (sw : ComponentConfig) (dc : Option ComponentConfig)
    (ac : List ComponentConfig) (sx sy ox oy : ℝ) (st : PlaceState)
    (key : KeyData) :
    place_for_key sw dc ac sx sy 0 ox oy st key =
      .error "float division by zero" := by
  simp [place_for_key, pyDiv_zero_divisor]

theorem place_for_key_ok_count (sw : ComponentConfig) (dc : Option ComponentConfig)
    (ac : List ComponentConfig) (sx sy ru ox oy : ℝ) (st st' : PlaceState)
    (key : KeyData) (h : place_for_key sw dc ac sx sy ru ox oy st key = .ok st') :
    outcomeCount st' = outcomeCount st + rulesCount sw dc ac := by
  by_cases hru : ru = 0
  · subst hru
    rw [place_for_key_zero] at h
    simp at h
  · rw [place_for_key_ru_ne sw dc ac sx sy ru ox oy st key hru] at h
    injection h with h2
    rw [← h2, place_rules_count]

/-- With a nonzero reference unit the whole key loop never raises and is
the plain fold of the per-rule attempts. -/
theorem foldlM_place_eq (sw : ComponentConfig) (dc : Option ComponentConfig)
    (ac : List ComponentConfig) (sx sy ru ox oy : ℝ) (hru : ru ≠ 0)
    (keys : List KeyData) (st : PlaceState) :
    keys.foldlM (place_for_key sw dc ac sx sy ru ox oy) st =
      .ok (keys.foldl (fun s k => place_rules sw dc ac
        (((k.center_x : ℝ) / ru) * sx + ox)
        (((k.center_y : ℝ) / ru) * sy + oy) s k) st) := by
  induction keys generalizing st with
  | nil => simp [List.foldlM_nil, pure, Except.pure]
  | cons k ks ih =>
    rw [List.foldlM_cons, place_for_key_ru_ne sw dc ac sx sy ru ox oy st k hru,
      except_ok_bind, ih, List.foldl_cons]

theorem foldlM_ok_count (sw : ComponentConfig) (dc : Option ComponentConfig)
    (ac : List ComponentConfig) (sx sy ru ox oy : ℝ) (keys : List KeyData)
    (st fin : PlaceState)
    (h : keys.foldlM (place_for_key sw dc ac sx sy ru ox oy) st = .ok fin) :
    outcomeCount fin = outcomeCount st + keys.length * rulesCount sw dc ac := by
  induction keys generalizing st with
  | nil =>
    simp only [List.foldlM_nil, pure, Except.pure] at h
    injection h with h2
    simp [← h2]
  | cons k ks ih =>
    rw [List.foldlM_cons] at h
    obtain ⟨s1, h1, h2⟩ := exceptBind_ok _ _ _ h
    have hc1 := place_for_key_ok_count sw dc ac sx sy ru ox oy st s1 k h1
    have hc2 := ih s1 h2
    rw [hc2, hc1, List.length_cons]
    ring

/-- On an object root, `find_nodes` is the nested probe, then the flat
probe, then the diagnostic error. -/
theorem find_nodes_obj_eq (fields : List (String × Json)) :
    find_nodes (.obj fields) =
      match shapeNested (.obj fields), shapeFlat (.obj fields) with
      | some ns, _ => .ok ns
      | none, some ns => .ok ns
      | none, none => .error (.noNodes (fields.map Prod.fst)) := by
  rcases hl : lookupField fields "layout" with _ | l
  · rcases hn : lookupField fields "nodes" with _ | v
    · simp [find_nodes, shapeNested, shapeFlat, hl, hn]
    · cases v <;> simp [find_nodes, shapeNested, shapeFlat, hl, hn]
  · cases l with
    | obj lf =>
      rcases hln : lookupField lf "nodes" with _ | w
      · rcases hn : lookupField fields "nodes" with _ | v
        · simp [find_nodes, shapeNested, shapeFlat, hl, hln, hn]
        · cases v <;> simp [find_nodes, shapeNested, shapeFlat, hl, hln, hn]
      · cases w with
        | arr ns2 => simp [find_nodes, shapeNested, shapeFlat, hl, hln]
        | null =>
          rcases hn : lookupField fields "nodes" with _ | v
          · simp [find_nodes, shapeNested, shapeFlat, hl, hln, hn]
          · cases v <;> simp [find_nodes, shapeNested, shapeFlat, hl, hln, hn]
        | bool b =>
          rcases hn : lookupField fields "nodes" with _ | v
          · simp [find_nodes, shapeNested, shapeFlat, hl, hln, hn]
          · cases v <;> simp [find_nodes, shapeNested, shapeFlat, hl, hln, hn]
        | num q =>
          rcases hn : lookupField fields "nodes" with _ | v
          · simp [find_nodes, shapeNested, shapeFlat, hl, hln, hn]
          · cases v <;> simp [find_nodes, shapeNested, shapeFlat, hl, hln, hn]
        | str s =>
          rcases hn : lookupField fields "nodes" with _ | v
          · simp [find_nodes, shapeNested, shapeFlat, hl, hln, hn]
          · cases v <;> simp [find_nodes, shapeNested, shapeFlat, hl, hln, hn]
        | obj o =>
          rcases hn : lookupField fields "nodes" with _ | v
          · simp [find_nodes, shapeNested, shapeFlat, hl, hln, hn]
          · cases v <;> simp [find_nodes, shapeNested, shapeFlat, hl, hln, hn]
    | null =>
      rcases hn : lookupField fields "nodes" with _ | v
      · simp [find_nodes, shapeNested, shapeFlat, hl, hn]
      · cases v <;> simp [find_nodes, shapeNested, shapeFlat, hl, hn]
    | bool b =>
      rcases hn : lookupField fields "nodes" with _ | v
      · simp [find_nodes, shapeNested, shapeFlat, hl, hn]
      · cases v <;> simp [find_nodes, shapeNested, shapeFlat, hl, hn]
    | num q =>
      rcases hn : lookupField fields "nodes" with _ | v
      · simp [find_nodes, shapeNested, shapeFlat, hl, hn]
      · cases v <;> simp [find_nodes, shapeNested, shapeFlat, hl, hn]
    | str s =>
      rcases hn : lookupField fields "nodes" with _ | v
      · simp [find_nodes, shapeNested, shapeFlat, hl, hn]
      · cases v <;> simp [find_nodes, shapeNested, shapeFlat, hl, hn]
    | arr a =>
      rcases hn : lookupField fields "nodes" with _ | v
      · simp [find_nodes, shapeNested, shapeFlat, hl, hn]
      · cases v <;> simp [find_nodes, shapeNested, shapeFlat, hl, hn]

/-- C2: the node array is resolved by trying exactly three document shapes
in fixed priority order — the document itself if it is an array, then the
nested `layout.nodes` array, then the flat `nodes` array — and
`find_nodes` returns a node array exactly when the first structurally
valid shape yields it, so exactly one shape's array is ever used per
document and nothing is merged across shapes. -/
theorem find_nodes_priority (data : Json) (ns : List Json) :
    find_nodes data = .ok ns ↔
      (shapeRootArray data = some ns ∨
       (shapeRootArray data = none ∧ shapeNested data = some ns) ∨
       (shapeRootArray data = none ∧ shapeNested data = none ∧
        shapeFlat data = some ns)) := by
  cases data with
  | arr items => simp [find_nodes, shapeRootArray, shapeNested, shapeFlat]
  | obj fields =>
    rw [find_nodes_obj_eq]
    rcases hn : shapeNested (.obj fields) with _ | ns1
    · rcases hf : shapeFlat (.obj fields) with _ | ns2
      · simp [shapeRootArray]
      · simp [shapeRootArray]
    · simp [shapeRootArray]
  | null => simp [find_nodes, shapeRootArray, shapeNested, shapeFlat]
  | bool b => simp [find_nodes, shapeRootArray, shapeNested, shapeFlat]
  | num q => simp [find_nodes, shapeRootArray, shapeNested, shapeFlat]
  | str s => simp [find_nodes, shapeRootArray, shapeNested, shapeFlat]

/-- Witness for `find_nodes_priority` at a flat-`nodes` document. -/
theorem find_nodes_priority_witness :
    find_nodes (Json.obj [("nodes", Json.arr [Json.num 1])]) = .ok [Json.num 1] :=
  (find_nodes_priority _ _).mpr (Or.inr (Or.inr ⟨rfl, rfl, rfl⟩))

/-- C8: extraction fails with a structure error exactly when no plausible
node array can be located or the root is neither an object nor an array:
an array root always succeeds; an object root on which both remaining
shapes fail yields the `noNodes` error carrying exactly the first-level
field names present; every error on an object root is that error; every
non-object non-array root yields the `badRoot` error; and these structure
errors propagate unchanged through `parse_kdt_data`, which fails with a
structure error exactly when `find_nodes` does. -/
theorem structure_error_characterization :
    (∀ items, find_nodes (.arr items) = .ok items) ∧
    (∀ fields, shapeNested (.obj fields) = none → shapeFlat (.obj fields) = none →
      find_nodes (.obj fields) = .error (.noNodes (fields.map Prod.fst))) ∧
    (∀ fields e, find_nodes (.obj fields) = .error e →
      e = .noNodes (fields.map Prod.fst)) ∧
    (∀ data : Json, shapeRootArray data = none → (∀ fields, data ≠ .obj fields) →
      find_nodes data = .error (.badRoot (pyTypeName data))) ∧
    (∀ (data : Json) (e : ExtractError), e ≠ .typeError →
      (parse_kdt_data data = .error e ↔ find_nodes data = .error e)) := by
  refine ⟨fun items => rfl, ?_, ?_, ?_, ?_⟩
  · intro fields h1 h2
    rw [find_nodes_obj_eq, h1, h2]
  · intro fields e h
    rw [find_nodes_obj_eq] at h
    rcases h1 : shapeNested (.obj fields) with _ | ns1 <;> rw [h1] at h
    · rcases h2 : shapeFlat (.obj fields) with _ | ns2 <;> rw [h2] at h
      · simpa using h.symm
      · simp at h
    · simp at h
  · intro data h1 h2
    cases data with
    | arr items => simp [shapeRootArray] at h1
    | obj fields => exact absurd rfl (h2 fields)
    | null => rfl
    | bool b => rfl
    | num q => rfl
    | str s => rfl
  · intro data e he
    unfold parse_kdt_data
    rcases hf : find_nodes data with e' | nodes
    · simp
    · simp only []
      constructor
      · intro h
        exact absurd (parse_nodes_error_eq nodes e h) he
      · intro h
        simp at h

/-- Witness for `structure_error_characterization`: an object document with
no node array fails with the key-carrying structure error. -/
theorem structure_error_characterization_witness :
    find_nodes (Json.obj [("meta", Json.num 1)]) =
      .error (.noNodes ["meta"]) :=
  structure_error_characterization.2.1 [("meta", Json.num 1)] rfl rfl

/-- C9: on a document whose resolved node array is empty, the extraction
entry point succeeds with the empty key list while the validation entry
point reports the document invalid with message
`"No nodes found in layout"` — the two public entry points disagree. -/
theorem empty_nodes_divergence (data : Json) (h : find_nodes data = .ok []) :
    parse_kdt_data data = .ok [] ∧
    validate_json_structure_data data =
      some (false, "No nodes found in layout") := by
  constructor
  · simp [parse_kdt_data, h, parse_nodes]
  · simp [validate_json_structure_data, h]

/-- Witness for `empty_nodes_divergence` at the empty array document. -/
theorem empty_nodes_divergence_witness :
    parse_kdt_data (Json.arr []) = .ok [] ∧
    validate_json_structure_data (Json.arr []) =
      some (false, "No nodes found in layout") :=
  empty_nodes_divergence (Json.arr []) rfl

/-- Inversion of a successful `parse_node`: every guard passed, every
coercion succeeded, and the key is built exactly from the read values. -/
theorem parse_node_key_inv (node : Json) (k : KeyData)
    (h : parse_node node = .key k) :
    ∃ position data x y w hh lv wu hu rot rox roy,
      pyIn "position" node = some true ∧
      pyIn "data" node = some true ∧
      getItem node "position" = some position ∧
      getItem node "data" = some data ∧
      getFloat position "x" 0 = some x ∧
      getFloat position "y" 0 = some y ∧
      getFloat node "width" 60 = some w ∧
      getFloat node "height" 60 = some hh ∧
      pyGet data "label" Json.null = some lv ∧
      isNull lv = false ∧
      getFloat data "widthU" 1 = some wu ∧
      getFloat data "heightU" 1 = some hu ∧
      getFloat data "rotation" 0 = some rot ∧
      getFloat data "rotationOriginX" (1/2) = some rox ∧
      getFloat data "rotationOriginY" (1/2) = some roy ∧
      k = ⟨pyStr lv, x + w / 2, y + hh / 2, wu, hu, rot, rox, roy⟩ := by
  simp only [parse_node] at h
  repeat' split at h
  all_goals try (cases h)
  rename_i o1 hpos o2 hdata o3 position hposv o4 data hdatav o5 x hx o6 y hy
    o7 w hw o8 hh hhh o9 lv hlv hnull o10 wu hwu o11 hu hhu o12 rot hrot
    o13 rox hrox o14 roy hroy
  exact ⟨position, data, x, y, w, hh, lv, wu, hu, rot, rox, roy,
    hpos, hdata, hposv, hdatav, hx, hy, hw, hhh, hlv,
    by simpa using hnull, hwu, hhu, hrot, hrox, hroy, rfl⟩

/-- C6: every extracted key's center is the position anchor plus half the
size, `center_x = position.x + width/2` and `center_y = position.y +
height/2`, with `position.x`/`position.y` defaulting to 0 and
`width`/`height` defaulting to 60 and read from the node itself — one
level above the `position` and `data` sub-objects. -/
theorem center_formula (node : Json) (k : KeyData)
    (h : parse_node node = .key k) :
    ∃ position x y w hh,
      getItem node "position" = some position ∧
      getFloat position "x" 0 = some x ∧
      getFloat position "y" 0 = some y ∧
      getFloat node "width" 60 = some w ∧
      getFloat node "height" 60 = some hh ∧
      k.center_x = x + w / 2 ∧ k.center_y = y + hh / 2 := by
  obtain ⟨position, data, x, y, w, hh, lv, wu, hu, rot, rox, roy,
    _, _, h3, _, h5, h6, h7, h8, _, _, _, _, _, _, _, hk⟩ :=
      parse_node_key_inv node k h
  exact ⟨position, x, y, w, hh, h3, h5, h6, h7, h8, by rw [hk], by rw [hk]⟩

/-- Witness for `center_formula`: a node at `x = 3` with default width 60
yields `center_x = 33`. -/
theorem center_formula_witness :
    ∃ position x y w hh,
      getItem (Json.obj [("position", Json.obj [("x", Json.num 3)]),
        ("data", Json.obj [("label", Json.str "A1")])]) "position" = some position ∧
      getFloat position "x" 0 = some x ∧
      getFloat position "y" 0 = some y ∧
      getFloat (Json.obj [("position", Json.obj [("x", Json.num 3)]),
        ("data", Json.obj [("label", Json.str "A1")])]) "width" 60 = some w ∧
      getFloat (Json.obj [("position", Json.obj [("x", Json.num 3)]),
        ("data", Json.obj [("label", Json.str "A1")])]) "height" 60 = some hh ∧
      (⟨"A1", 3 + 60 / 2, 0 + 60 / 2, 1, 1, 0, 1/2, 1/2⟩ : KeyData).center_x =
        x + w / 2 ∧
      (⟨"A1", 3 + 60 / 2, 0 + 60 / 2, 1, 1, 0, 1/2, 1/2⟩ : KeyData).center_y =
        y + hh / 2 :=
  center_formula _ _ rfl

/-- C7 counterexample: a document whose shape resolves fine (array root)
but whose single node carries an uncoercible `position.x` (a list) makes
extraction raise — `float([])` is a `TypeError` — so extraction can fail
on a per-node basis even though the node has `position`, `data` and
`data.label`, contradicting the claim that extraction never fails
per-node and only on document-shape failure. -/
theorem per_node_raise_cex :
    find_nodes (Json.arr [Json.obj [("position", Json.obj [("x", Json.arr [])]),
        ("data", Json.obj [("label", Json.str "A")])]]) =
      .ok [Json.obj [("position", Json.obj [("x", Json.arr [])]),
        ("data", Json.obj [("label", Json.str "A")])]] ∧
    parse_kdt_data (Json.arr [Json.obj [("position", Json.obj [("x", Json.arr [])]),
        ("data", Json.obj [("label", Json.str "A")])]]) = .error .typeError :=
  ⟨rfl, rfl⟩

/-- C7 (amended): nodes whose membership tests succeed but lack a
`position` or `data` entry are omitted without raising; a node with both
whose consulted pixel fields coerce and whose `data.label` is absent (or
null) is omitted without raising; every extracted KeyRecord came from a
node that had `position`, `data` and a non-null `data.label`; and on any
node list on which `parse_node` never raises, extraction succeeds with
exactly the parsed keys — but a node whose consulted values have
uncoercible types makes the whole extraction raise (see the
counterexample), so per-node failure is possible. -/
theorem node_omission_invariant :
    (∀ node, pyIn "position" node = some false → parse_node node = .skipped) ∧
    (∀ node, pyIn "position" node = some true → pyIn "data" node = some false →
      parse_node node = .skipped) ∧
    (∀ node position data x y w hh,
      pyIn "position" node = some true → pyIn "data" node = some true →
      getItem node "position" = some position → getItem node "data" = some data →
      getFloat position "x" 0 = some x → getFloat position "y" 0 = some y →
      getFloat node "width" 60 = some w → getFloat node "height" 60 = some hh →
      pyGet data "label" Json.null = some Json.null →
      parse_node node = .skipped) ∧
    (∀ node k, parse_node node = .key k →
      pyIn "position" node = some true ∧ pyIn "data" node = some true ∧
      ∃ data lv, getItem node "data" = some data ∧
        pyGet data "label" Json.null = some lv ∧ isNull lv = false) ∧
    (∀ ns : List Json, (∀ n ∈ ns, parse_node n ≠ .raised) →
      parse_nodes ns = .ok (ns.filterMap fun n =>
        match parse_node n with | .key k => some k | _ => none)) := by
  refine ⟨?_, ?_, ?_, ?_, ?_⟩
  · intro node h
    simp [parse_node, h]
  · intro node h1 h2
    simp [parse_node, h1, h2]
  · intro node position data x y w hh h1 h2 h3 h4 h5 h6 h7 h8 h9
    simp [parse_node, h1, h2, h3, h4, h5, h6, h7, h8, h9, isNull]
  · intro node k h
    obtain ⟨position, data, x, y, w, hh, lv, wu, hu, rot, rox, roy,
      hpos, hdata, _, hdatav, _, _, _, _, hlv, hnull, _, _, _, _, _, _⟩ :=
        parse_node_key_inv node k h
    exact ⟨hpos, hdata, data, lv, hdatav, hlv, hnull⟩
  · intro ns
    induction ns with
    | nil => intro _; simp [parse_nodes]
    | cons n rest ih =>
      intro h
      have hn : parse_node n ≠ .raised := h n (by simp)
      have hrest : ∀ m ∈ rest, parse_node m ≠ .raised :=
        fun m hm => h m (by simp [hm])
      rcases hp : parse_node n with _ | _ | k
      · exact absurd hp hn
      · simp [parse_nodes, hp, ih hrest]
      · simp [parse_nodes, hp, ih hrest, List.filterMap_cons, Except.map]

/-- Witness for `node_omission_invariant`: a data-only node is silently
skipped, and a list of such nodes extracts to the empty key list. -/
theorem node_omission_invariant_witness :
    parse_node (Json.obj [("data", Json.obj [])]) = .skipped ∧
    parse_nodes [Json.obj []] = .ok [] :=
  ⟨node_omission_invariant.1 _ (by decide),
   node_omission_invariant.2.2.2.2 [Json.obj []] (by decide)⟩

/-- Looking a reference up after `setFootprint` on that reference returns
the new footprint, provided the reference resolved before. -/
theorem find_set_list (l : List (String × Footprint)) (ref : String)
    (fp' : Footprint) (h : (l.find? (fun p => p.1 = ref)).isSome) :
    ((l.map fun p => if p.1 = ref then (p.1, fp') else p).find?
      (fun p => p.1 = ref)) = some (ref, fp') := by
  induction l with
  | nil => simp [List.find?] at h
  | cons a rest ih =>
    by_cases ha : a.1 = ref
    · simp [List.find?, ha]
    · rw [List.map_cons, if_neg ha]
      rw [List.find?_cons_of_neg _ (by simpa using ha)]
      rw [List.find?_cons_of_neg _ (by simpa using ha)] at h
      exact ih h

theorem findFootprint_setFootprint (board : Board) (ref : String)
    (fp fp' : Footprint) (h : findFootprint board ref = some fp) :
    findFootprint (setFootprint board ref fp') ref = some fp' := by
  unfold findFootprint at *
  unfold setFootprint
  have hs : (board.footprints.find? (fun p => p.1 = ref)).isSome := by
    rcases hf : board.footprints.find? (fun p => p.1 = ref) with _ | p
    · rw [hf] at h; simp at h
    · rw [hf]; simp
  rw [find_set_list board.footprints ref fp' hs]

/-- The success path of `_place_component`: when the reference resolves and
the host raises nothing, the result is a success outcome and the board
stores, under that reference, the footprint at the rotated-offset position
(converted to internal units), with absolute orientation
`config.orientation_deg - key.rotation`, on the configured side. -/
theorem place_component_success (board : Board) (key : KeyData)
    (config : ComponentConfig) (bx bY ox oy : ℝ) (fp : Footprint)
    (h : findFootprint board
      (pyReplace config.annotation_pattern substMarker key.label) = some fp)
    (hr : board.raiseOn
      (pyReplace config.annotation_pattern substMarker key.label) = none) :
    (place_component board key config bx bY ox oy).1.success = true ∧
    (place_component board key config bx bY ox oy).1.reference =
      pyReplace config.annotation_pattern substMarker key.label ∧
    findFootprint (place_component board key config bx bY ox oy).2
        (pyReplace config.annotation_pattern substMarker key.label) =
      some ⟨mm_to_nm (bx + (rotate_offset ox oy (-(key.rotation : ℝ))).1),
            mm_to_nm (bY + (rotate_offset ox oy (-(key.rotation : ℝ))).2),
            config.orientation_deg - (key.rotation : ℝ),
            if config.pcb_side = "Bottom" then Layer.BCu else Layer.FCu⟩ := by
  refine ⟨?_, ?_, ?_⟩
  · simp only [place_component, h, hr]
  · simp only [place_component, h, hr]
  · simp only [place_component, h, hr]
    have := findFootprint_setFootprint board
      (pyReplace config.annotation_pattern substMarker key.label) fp
    split
    · rename_i hside
      rw [this _ (by exact h)]
      cases hl : fp.layer <;>
        simp [ensure_on_back, flipFootprint, hl, hside]
    · rename_i hside
      rw [this _ (by exact h)]
      cases hl : fp.layer <;>
        simp [ensure_on_front, flipFootprint, hl, hside]

/-- A one-key, switch-only run with a nonzero reference unit completes and
mutates the board exactly as one `_place_component` call at the key's
base position with zero offsets. -/
theorem place_keys_single_sw (board : Board) (key : KeyData)
    (sw : ComponentConfig) (sx sy ru ox oy : ℝ)
    (hsw : sw.enabled = true) (hru : ru ≠ 0) :
    ∃ s, place_keys board [key] sw none [] sx sy ru ox oy =
      .ok (s, (place_component board key sw
        (((key.center_x : ℝ) / ru) * sx + ox)
        (((key.center_y : ℝ) / ru) * sy + oy) 0 0).2) := by
  simp only [place_keys, foldlM_place_eq sw none [] sx sy ru ox oy hru,
    List.foldl_cons, List.foldl_nil]
  simp only [place_rules, hsw, if_true, stepPlace]
  exact ⟨_, rfl⟩

/-- A one-key, diode-only run with a nonzero reference unit completes and
mutates the board exactly as one `_place_component` call with the diode
rule's configured offsets. -/
theorem place_keys_single_diode (board : Board) (key : KeyData)
    (sw dc : ComponentConfig) (sx sy ru ox oy : ℝ)
    (hsw : sw.enabled = false) (hd : dc.enabled = true) (hru : ru ≠ 0) :
    ∃ s, place_keys board [key] sw (some dc) [] sx sy ru ox oy =
      .ok (s, (place_component board key dc
        (((key.center_x : ℝ) / ru) * sx + ox)
        (((key.center_y : ℝ) / ru) * sy + oy)
        dc.x_offset_mm dc.y_offset_mm).2) := by
  simp only [place_keys, foldlM_place_eq sw (some dc) [] sx sy ru ox oy hru,
    List.foldl_cons, List.foldl_nil]
  simp only [place_rules, hsw, hd, Bool.false_eq_true, if_false, if_true,
    stepPlace]
  exact ⟨_, rfl⟩

/-- A one-key, one-additional-rule run with a nonzero reference unit
completes and mutates the board exactly as one `_place_component` call
with that rule's configured offsets. -/
theorem place_keys_single_add (board : Board) (key : KeyData)
    (sw c : ComponentConfig) (sx sy ru ox oy : ℝ)
    (hsw : sw.enabled = false) (hc : c.enabled = true) (hru : ru ≠ 0) :
    ∃ s, place_keys board [key] sw none [c] sx sy ru ox oy =
      .ok (s, (place_component board key c
        (((key.center_x : ℝ) / ru) * sx + ox)
        (((key.center_y : ℝ) / ru) * sy + oy)
        c.x_offset_mm c.y_offset_mm).2) := by
  simp only [place_keys, foldlM_place_eq sw none [c] sx sy ru ox oy hru,
    List.foldl_cons, List.foldl_nil]
  simp only [place_rules, hsw, hc, Bool.false_eq_true, if_false, if_true,
    List.foldl_cons, List.foldl_nil, stepPlace]
  exact ⟨_, rfl⟩

/-- C4: when the reference resolves to no footprint, `_place_component`
records the outcome with message exactly `"Footprint not found: "` plus
the substituted reference, returns the board untouched, and
`_categorize_result` files that outcome under missing (its message always
contains `"not found"`), leaving placed and errors unchanged — the run is
never aborted. -/
theorem missing_target_outcome (board : Board) (key : KeyData)
    (config : ComponentConfig) (bx bY ox oy : ℝ)
    (h : findFootprint board
      (pyReplace config.annotation_pattern substMarker key.label) = none) :
    place_component board key config bx bY ox oy =
      (⟨pyReplace config.annotation_pattern substMarker key.label, false,
        "Footprint not found: " ++
          pyReplace config.annotation_pattern substMarker key.label⟩, board) ∧
    strContains ("Footprint not found: " ++
      pyReplace config.annotation_pattern substMarker key.label)
      "not found" = true ∧
    (∀ placed missing errors,
      categorize_result
        ⟨pyReplace config.annotation_pattern substMarker key.label, false,
          "Footprint not found: " ++
            pyReplace config.annotation_pattern substMarker key.label⟩
        placed missing errors =
        (placed,
         missing ++ [⟨pyReplace config.annotation_pattern substMarker key.label,
           false, "Footprint not found: " ++
             pyReplace config.annotation_pattern substMarker key.label⟩],
         errors)) := by
  have hc : strContains ("Footprint not found: " ++
      pyReplace config.annotation_pattern substMarker key.label)
      "not found" = true :=
    strContains_append_right _ _ _ (by decide)
  refine ⟨?_, hc, ?_⟩
  · simp only [place_component, h]
  · intro p m e
    simp [categorize_result, hc]

/-- Witness for `missing_target_outcome`: an empty board misses `SWA1`. -/
theorem missing_target_outcome_witness :
    place_component ⟨[], fun _ => none⟩ ⟨"A1", 0, 0, 1, 1, 0, 1/2, 1/2⟩
        ⟨"Switch", "SW\x7b\x7d", 0, 0, 0, "Top", true⟩ 1 2 0 0 =
      (⟨"SWA1", false, "Footprint not found: SWA1"⟩, ⟨[], fun _ => none⟩) :=
  (missing_target_outcome ⟨[], fun _ => none⟩ ⟨"A1", 0, 0, 1, 1, 0, 1/2, 1/2⟩
    ⟨"Switch", "SW\x7b\x7d", 0, 0, 0, "Top", true⟩ 1 2 0 0 rfl).1

/-- C5: on every successful placement the absolute orientation stored on
the target equals `rule.orientation_deg - key.rotation`. -/
theorem orientation_formula (board : Board) (key : KeyData)
    (config : ComponentConfig) (bx bY ox oy : ℝ) (fp : Footprint)
    (h : findFootprint board
      (pyReplace config.annotation_pattern substMarker key.label) = some fp)
    (hr : board.raiseOn
      (pyReplace config.annotation_pattern substMarker key.label) = none) :
    (place_component board key config bx bY ox oy).1.success = true ∧
    ∃ fp', findFootprint (place_component board key config bx bY ox oy).2
        (pyReplace config.annotation_pattern substMarker key.label) =
          some fp' ∧
      fp'.orientation = config.orientation_deg - (key.rotation : ℝ) := by
  obtain ⟨hs, _, hfind⟩ :=
    place_component_success board key config bx bY ox oy fp h hr
  exact ⟨hs, _, hfind, rfl⟩

/-- Witness for `orientation_formula`: key rotation 90 with rule base
orientation 0 yields stored orientation `0 - 90`. -/
theorem orientation_formula_witness :
    (place_component ⟨[("SWA2", ⟨0, 0, 0, Layer.FCu⟩)], fun _ => none⟩
      ⟨"A2", 0, 0, 1, 1, 90, 1/2, 1/2⟩
      ⟨"Switch", "SW\x7b\x7d", 0, 0, 0, "Top", true⟩ 0 0 0 0).1.success = true ∧
    ∃ fp', findFootprint
        (place_component ⟨[("SWA2", ⟨0, 0, 0, Layer.FCu⟩)], fun _ => none⟩
          ⟨"A2", 0, 0, 1, 1, 90, 1/2, 1/2⟩
          ⟨"Switch", "SW\x7b\x7d", 0, 0, 0, "Top", true⟩ 0 0 0 0).2 "SWA2" =
        some fp' ∧
      fp'.orientation = (0 : ℝ) - ((90 : ℚ) : ℝ) :=
  orientation_formula ⟨[("SWA2", ⟨0, 0, 0, Layer.FCu⟩)], fun _ => none⟩
    ⟨"A2", 0, 0, 1, 1, 90, 1/2, 1/2⟩
    ⟨"Switch", "SW\x7b\x7d", 0, 0, 0, "Top", true⟩ 0 0 0 0
    ⟨0, 0, 0, Layer.FCu⟩ rfl rfl

/-- C10: each `(key, enabled rule)` attempt yields exactly one result,
filed into exactly one of the three lists solely by the success flag and
then by whether the message contains `"not found"`; consequently a
mutation failure whose exception text contains `"not found"` — raised at
any stage of the mutation — is filed under missing-target rather than
error, and on every run that returns a summary the three list lengths
sum to the number of attempts (`keys × enabled rules`). -/
theorem categorization_partition :
    (∀ (r : PlacementResult) p m e, r.success = true →
      categorize_result r p m e = (p ++ [r], m, e)) ∧
    (∀ (r : PlacementResult) p m e, r.success = false →
      strContains r.message "not found" = true →
      categorize_result r p m e = (p, m ++ [r], e)) ∧
    (∀ (r : PlacementResult) p m e, r.success = false →
      strContains r.message "not found" = false →
      categorize_result r p m e = (p, m, e ++ [r])) ∧
    (∀ (board : Board) (key : KeyData) (config : ComponentConfig)
        (bx bY ox oy : ℝ) (fp : Footprint) (stage : MutationStage)
        (etext : String),
      findFootprint board
        (pyReplace config.annotation_pattern substMarker key.label) = some fp →
      board.raiseOn
        (pyReplace config.annotation_pattern substMarker key.label) =
          some (stage, etext) →
      strContains etext "not found" = true →
      ∀ p m e, categorize_result
        (place_component board key config bx bY ox oy).1 p m e =
        (p, m ++ [(place_component board key config bx bY ox oy).1], e)) ∧
    (∀ (board : Board) (keys : List KeyData) (sw : ComponentConfig)
        (dc : Option ComponentConfig) (ac : List ComponentConfig)
        (sx sy ru ox oy : ℝ) (s : PlacementSummary) (b' : Board),
      place_keys board keys sw dc ac sx sy ru ox oy = .ok (s, b') →
      s.placed.length + s.missing.length + s.errors.length =
        keys.length * rulesCount sw dc ac) := by
  refine ⟨?_, ?_, ?_, ?_, ?_⟩
  · intro r p m e hs
    simp [categorize_result, hs]
  · intro r p m e hs hc
    simp [categorize_result, hs, hc]
  · intro r p m e hs hc
    simp [categorize_result, hs, hc]
  · intro board key config bx bY ox oy fp stage etext h hr hc p m e
    have hmsg : (place_component board key config bx bY ox oy).1 =
        ⟨pyReplace config.annotation_pattern substMarker key.label, false,
          "Error placing " ++
            pyReplace config.annotation_pattern substMarker key.label ++
              ": " ++ etext⟩ := by
      cases stage <;> simp only [place_component, h, hr]
    rw [hmsg]
    have hcm : strContains
        ("Error placing " ++
          pyReplace config.annotation_pattern substMarker key.label ++
            ": " ++ etext) "not found" = true :=
      strContains_append_left _ _ _ hc
    simp [categorize_result, hcm]
  · intro board keys sw dc ac sx sy ru ox oy s b' h
    unfold place_keys at h
    rcases hf : keys.foldlM
        (place_for_key sw dc ac sx sy ru ox oy) ⟨[], [], [], board⟩
      with e | fin
    · rw [hf] at h
      simp at h
    · rw [hf] at h
      injection h with h2
      injection h2 with h3 h4
      have hc := foldlM_ok_count sw dc ac sx sy ru ox oy keys
        ⟨[], [], [], board⟩ fin hf
      rw [← h3]
      simpa [outcomeCount] using hc

/-- Witness for `categorization_partition`: a success result is appended
to the placed list. -/
theorem categorization_partition_witness :
    categorize_result ⟨"SWA1", true, "Placed"⟩ [] [] [] =
      ([⟨"SWA1", true, "Placed"⟩], [], []) :=
  categorization_partition.1 ⟨"SWA1", true, "Placed"⟩ [] [] [] rfl

theorem except_error_bind {ε α β : Type} (e : ε) (g : α → Except ε β) :
    ((Except.error e : Except ε α) >>= g) = .error e := rfl

/-- C3 counterexample: the place operation is neither total nor does it
file every caught mutation failure as an error outcome.  (1) With a zero
`ref_unit_px` and a non-empty key list, the base-position division raises
`ZeroDivisionError`, which escapes `place_keys` uncaught.  (2) With a
nonzero `ref_unit_px`, a host failure during mutation whose exception
text contains `"not found"` (here `"net not found"` while mutating
`SWA1`) is recorded in the **missing** list, with the errors list left
empty — not recorded as an error outcome as the claim states. -/
theorem place_raise_and_misfile_cex :
    place_keys
      ⟨[("SWA1", ⟨0, 0, 0, Layer.FCu⟩)],
        fun r => if r = "SWA1" then
          some (MutationStage.atPosition, "net not found") else none⟩
      [⟨"A1", 30, 30, 1, 1, 0, 1/2, 1/2⟩]
      ⟨"Switch", "SW\x7b\x7d", 0, 0, 0, "Top", true⟩ none []
      1 1 0 0 0 = .error "float division by zero" ∧
    (∃ s b', place_keys
      ⟨[("SWA1", ⟨0, 0, 0, Layer.FCu⟩)],
        fun r => if r = "SWA1" then
          some (MutationStage.atPosition, "net not found") else none⟩
      [⟨"A1", 30, 30, 1, 1, 0, 1/2, 1/2⟩]
      ⟨"Switch", "SW\x7b\x7d", 0, 0, 0, "Top", true⟩ none []
      1 1 60 0 0 = .ok (s, b') ∧
      s.missing = [⟨"SWA1", false, "Error placing SWA1: net not found"⟩] ∧
      s.errors = []) := by
  constructor
  · simp only [place_keys, List.foldlM_cons, place_for_key_zero,
      except_error_bind]
  · have h60 : (60 : ℝ) ≠ 0 := by norm_num
    simp only [place_keys,
      foldlM_place_eq ⟨"Switch", "SW\x7b\x7d", 0, 0, 0, "Top", true⟩
        none [] 1 1 60 0 0 h60]
    exact ⟨_, _, rfl, rfl, rfl⟩

/-- C3 (amended): a failure during target mutation after the target has
been resolved — at any of the three host mutation calls, which may leave
the target partially mutated — is caught and recorded as a failed outcome
whose message is `"Error placing <reference>: <text>"`; that outcome is
classified as **error** when its message does not contain `"not found"`
and as **missing-target** when it does; the run is never aborted by such
a failure: whenever `ref_unit_px` is nonzero (and always for an empty key
list) `place_keys` returns a summary reporting all keys and all
`keys × enabled rules` attempts.  The operation is **not** total: with a
nonzero key list and a zero `ref_unit_px` the base-position division
raises `ZeroDivisionError` out of the run (see the counterexample). -/
theorem place_total_error_capture :
    (∀ (board : Board) (key : KeyData) (config : ComponentConfig)
        (bx bY ox oy : ℝ) (fp : Footprint) (stage : MutationStage)
        (etext : String),
      findFootprint board
        (pyReplace config.annotation_pattern substMarker key.label) = some fp →
      board.raiseOn
        (pyReplace config.annotation_pattern substMarker key.label) =
          some (stage, etext) →
      (place_component board key config bx bY ox oy).1 =
        ⟨pyReplace config.annotation_pattern substMarker key.label, false,
          "Error placing " ++
            pyReplace config.annotation_pattern substMarker key.label ++
              ": " ++ etext⟩) ∧
    (∀ (r : PlacementResult) p m e, r.success = false →
      (strContains r.message "not found" = false →
        categorize_result r p m e = (p, m, e ++ [r])) ∧
      (strContains r.message "not found" = true →
        categorize_result r p m e = (p, m ++ [r], e))) ∧
    (∀ (board : Board) (keys : List KeyData) (sw : ComponentConfig)
        (dc : Option ComponentConfig) (ac : List ComponentConfig)
        (sx sy ru ox oy : ℝ), ru ≠ 0 →
      ∃ p, place_keys board keys sw dc ac sx sy ru ox oy = .ok p) ∧
    (∀ (board : Board) (keys : List KeyData) (sw : ComponentConfig)
        (dc : Option ComponentConfig) (ac : List ComponentConfig)
        (sx sy ru ox oy : ℝ) (s : PlacementSummary) (b' : Board),
      place_keys board keys sw dc ac sx sy ru ox oy = .ok (s, b') →
      s.total_keys = keys.length ∧
      s.placed.length + s.missing.length + s.errors.length =
        keys.length * rulesCount sw dc ac) ∧
    (∀ (board : Board) (key : KeyData) (keys' : List KeyData)
        (sw : ComponentConfig) (dc : Option ComponentConfig)
        (ac : List ComponentConfig) (sx sy ox oy : ℝ),
      place_keys board (key :: keys') sw dc ac sx sy 0 ox oy =
        .error "float division by zero") ∧
    (∀ (board : Board) (sw : ComponentConfig) (dc : Option ComponentConfig)
        (ac : List ComponentConfig) (sx sy ru ox oy : ℝ),
      place_keys board [] sw dc ac sx sy ru ox oy =
        .ok (⟨0, [], [], []⟩, board)) := by
  refine ⟨?_, ?_, ?_, ?_, ?_, ?_⟩
  · intro board key config bx bY ox oy fp stage etext h hr
    cases stage <;> simp only [place_component, h, hr]
  · intro r p m e hs
    constructor
    · intro hc
      simp [categorize_result, hs, hc]
    · intro hc
      simp [categorize_result, hs, hc]
  · intro board keys sw dc ac sx sy ru ox oy hru
    simp only [place_keys, foldlM_place_eq sw dc ac sx sy ru ox oy hru]
    exact ⟨_, rfl⟩
  · intro board keys sw dc ac sx sy ru ox oy s b' h
    unfold place_keys at h
    rcases hf : keys.foldlM
        (place_for_key sw dc ac sx sy ru ox oy) ⟨[], [], [], board⟩
      with e | fin
    · rw [hf] at h
      simp at h
    · rw [hf] at h
      injection h with h2
      injection h2 with h3 h4
      have hc := foldlM_ok_count sw dc ac sx sy ru ox oy keys
        ⟨[], [], [], board⟩ fin hf
      constructor
      · rw [← h3]
      · rw [← h3]
        simpa [outcomeCount] using hc
  · intro board key keys' sw dc ac sx sy ox oy
    simp only [place_keys, List.foldlM_cons, place_for_key_zero,
      except_error_bind]
  · intro board sw dc ac sx sy ru ox oy
    rfl

/-- Witness for `place_total_error_capture`: a host raise with text
`"boom"` at the orientation write while mutating `SWA1` is captured as
the error-text outcome. -/
theorem place_total_error_capture_witness :
    (place_component
      ⟨[("SWA1", ⟨0, 0, 0, Layer.FCu⟩)],
        fun r => if r = "SWA1" then
          some (MutationStage.atOrientation, "boom") else none⟩
      ⟨"A1", 0, 0, 1, 1, 0, 1/2, 1/2⟩
      ⟨"Switch", "SW\x7b\x7d", 0, 0, 0, "Top", true⟩ 1 2 0 0).1 =
      ⟨"SWA1", false, "Error placing SWA1: boom"⟩ :=
  place_total_error_capture.1
    ⟨[("SWA1", ⟨0, 0, 0, Layer.FCu⟩)],
      fun r => if r = "SWA1" then
        some (MutationStage.atOrientation, "boom") else none⟩
    ⟨"A1", 0, 0, 1, 1, 0, 1/2, 1/2⟩
    ⟨"Switch", "SW\x7b\x7d", 0, 0, 0, "Top", true⟩ 1 2 0 0
    ⟨0, 0, 0, Layer.FCu⟩ MutationStage.atOrientation "boom" rfl rfl

/-- C1 counterexample: a switch rule configured with `offset_x_mm = 5` on
an unrotated key at scaled base `(1, 2)` mm is placed at the base itself
(internal-unit x `1000000`), not at the base plus the rotated configured
offset (`6000000`) that the claim predicts for every enabled rule
"including the switch rule" — `place_keys` passes literal zero offsets for
the switch slot. -/
theorem switch_offset_ignored_cex :
    (∃ s b' fp', place_keys ⟨[("SWA1", ⟨0, 0, 0, Layer.FCu⟩)], fun _ => none⟩
          [⟨"A1", 30, 60, 1, 1, 0, 1/2, 1/2⟩]
          ⟨"Switch", "SW\x7b\x7d", 5, 0, 0, "Top", true⟩ none []
          2 2 60 0 0 = .ok (s, b') ∧
      findFootprint b' "SWA1" = some fp' ∧
      fp'.posX = 1000000) ∧
    mm_to_nm ((((30 : ℚ) : ℝ) / 60) * 2 + 0 +
      (rotate_offset 5 0 (-((0 : ℚ) : ℝ))).1) = 6000000 ∧
    (1000000 : ℤ) ≠ 6000000 := by
  refine ⟨?_, ?_, by decide⟩
  · obtain ⟨s, hok⟩ := place_keys_single_sw
      ⟨[("SWA1", ⟨0, 0, 0, Layer.FCu⟩)], fun _ => none⟩
      ⟨"A1", 30, 60, 1, 1, 0, 1/2, 1/2⟩
      ⟨"Switch", "SW\x7b\x7d", 5, 0, 0, "Top", true⟩ 2 2 60 0 0 rfl
      (by norm_num)
    obtain ⟨_, _, hfind⟩ := place_component_success
      ⟨[("SWA1", ⟨0, 0, 0, Layer.FCu⟩)], fun _ => none⟩
      ⟨"A1", 30, 60, 1, 1, 0, 1/2, 1/2⟩
      ⟨"Switch", "SW\x7b\x7d", 5, 0, 0, "Top", true⟩
      ((((30 : ℚ) : ℝ) / 60) * 2 + 0) ((((60 : ℚ) : ℝ) / 60) * 2 + 0) 0 0
      ⟨0, 0, 0, Layer.FCu⟩ rfl rfl
    refine ⟨s, _, _, hok, hfind, ?_⟩
    show mm_to_nm ((((30 : ℚ) : ℝ) / 60) * 2 + 0 +
      (rotate_offset 0 0 (-(((0 : ℚ) : ℚ) : ℝ))).1) = 1000000
    have e1 : (((30 : ℚ) : ℝ) / 60) * 2 + 0 +
        (rotate_offset 0 0 (-(((0 : ℚ) : ℚ) : ℝ))).1 = ((1 : ℤ) : ℝ) := by
      rw [rotate_offset_zero_offset]
      push_cast
      norm_num
    rw [e1, mm_to_nm_intCast]
    norm_num
  · have e2 : (((30 : ℚ) : ℝ) / 60) * 2 + 0 +
        (rotate_offset 5 0 (-((0 : ℚ) : ℝ))).1 = ((6 : ℤ) : ℝ) := by
      have hz : (-((0 : ℚ) : ℝ)) = 0 := by push_cast; ring
      rw [hz, rotate_offset_zero_angle]
      push_cast
      norm_num
    rw [e2, mm_to_nm_intCast]
    norm_num

/-- C1 (amended): for every key the base position is
`((center / reference_unit) * scale + layout_offset)` per axis, and on
every completed run (nonzero reference unit) the final placed position is
the base plus the offset rotated by the negated key rotation — where the
rotated offset is the rule's configured `(offset_x_mm, offset_y_mm)` for
the diode rule and for every additional rule, but literal `(0, 0)` for
the switch rule, whose configured offsets are ignored (see the
counterexample). -/
theorem placement_position_formula :
    (∀ (board : Board) (key : KeyData) (sw : ComponentConfig)
        (sx sy ru ox oy : ℝ) (fp : Footprint),
      sw.enabled = true → ru ≠ 0 →
      findFootprint board
        (pyReplace sw.annotation_pattern substMarker key.label) = some fp →
      board.raiseOn
        (pyReplace sw.annotation_pattern substMarker key.label) = none →
      ∃ s b', place_keys board [key] sw none [] sx sy ru ox oy =
          .ok (s, b') ∧
        findFootprint b'
            (pyReplace sw.annotation_pattern substMarker key.label) =
          some ⟨mm_to_nm ((((key.center_x : ℝ) / ru) * sx + ox) +
                  (rotate_offset 0 0 (-(key.rotation : ℝ))).1),
                mm_to_nm ((((key.center_y : ℝ) / ru) * sy + oy) +
                  (rotate_offset 0 0 (-(key.rotation : ℝ))).2),
                sw.orientation_deg - (key.rotation : ℝ),
                if sw.pcb_side = "Bottom" then Layer.BCu else Layer.FCu⟩) ∧
    (∀ (board : Board) (key : KeyData) (sw dc : ComponentConfig)
        (sx sy ru ox oy : ℝ) (fp : Footprint),
      sw.enabled = false → dc.enabled = true → ru ≠ 0 →
      findFootprint board
        (pyReplace dc.annotation_pattern substMarker key.label) = some fp →
      board.raiseOn
        (pyReplace dc.annotation_pattern substMarker key.label) = none →
      ∃ s b', place_keys board [key] sw (some dc) [] sx sy ru ox oy =
          .ok (s, b') ∧
        findFootprint b'
            (pyReplace dc.annotation_pattern substMarker key.label) =
          some ⟨mm_to_nm ((((key.center_x : ℝ) / ru) * sx + ox) +
                  (rotate_offset dc.x_offset_mm dc.y_offset_mm
                    (-(key.rotation : ℝ))).1),
                mm_to_nm ((((key.center_y : ℝ) / ru) * sy + oy) +
                  (rotate_offset dc.x_offset_mm dc.y_offset_mm
                    (-(key.rotation : ℝ))).2),
                dc.orientation_deg - (key.rotation : ℝ),
                if dc.pcb_side = "Bottom" then Layer.BCu else Layer.FCu⟩) ∧
    (∀ (board : Board) (key : KeyData) (sw c : ComponentConfig)
        (sx sy ru ox oy : ℝ) (fp : Footprint),
      sw.enabled = false → c.enabled = true → ru ≠ 0 →
      findFootprint board
        (pyReplace c.annotation_pattern substMarker key.label) = some fp →
      board.raiseOn
        (pyReplace c.annotation_pattern substMarker key.label) = none →
      ∃ s b', place_keys board [key] sw none [c] sx sy ru ox oy =
          .ok (s, b') ∧
        findFootprint b'
            (pyReplace c.annotation_pattern substMarker key.label) =
          some ⟨mm_to_nm ((((key.center_x : ℝ) / ru) * sx + ox) +
                  (rotate_offset c.x_offset_mm c.y_offset_mm
                    (-(key.rotation : ℝ))).1),
                mm_to_nm ((((key.center_y : ℝ) / ru) * sy + oy) +
                  (rotate_offset c.x_offset_mm c.y_offset_mm
                    (-(key.rotation : ℝ))).2),
                c.orientation_deg - (key.rotation : ℝ),
                if c.pcb_side = "Bottom" then Layer.BCu else Layer.FCu⟩) := by
  refine ⟨?_, ?_, ?_⟩
  · intro board key sw sx sy ru ox oy fp hsw hru h hr
    obtain ⟨s, hok⟩ := place_keys_single_sw board key sw sx sy ru ox oy hsw hru
    exact ⟨s, _, hok, (place_component_success board key sw _ _ 0 0 fp h hr).2.2⟩
  · intro board key sw dc sx sy ru ox oy fp hsw hd hru h hr
    obtain ⟨s, hok⟩ :=
      place_keys_single_diode board key sw dc sx sy ru ox oy hsw hd hru
    exact ⟨s, _, hok, (place_component_success board key dc _ _ _ _ fp h hr).2.2⟩
  · intro board key sw c sx sy ru ox oy fp hsw hc hru h hr
    obtain ⟨s, hok⟩ :=
      place_keys_single_add board key sw c sx sy ru ox oy hsw hc hru
    exact ⟨s, _, hok, (place_component_success board key c _ _ _ _ fp h hr).2.2⟩

/-- Witness for `placement_position_formula`: a diode rule with configured
offset `(0, 5)` on an unrotated key stores the base-plus-rotated-offset
position and side Bottom. -/
theorem placement_position_formula_witness :
    ∃ s b', place_keys ⟨[("DA1", ⟨0, 0, 0, Layer.FCu⟩)], fun _ => none⟩
          [⟨"A1", 30, 30, 1, 1, 0, 1/2, 1/2⟩]
          ⟨"Switch", "SW\x7b\x7d", 0, 0, 0, "Top", false⟩
          (some ⟨"Diode", "D\x7b\x7d", 0, 5, 0, "Bottom", true⟩) []
          2 2 60 0 0 = .ok (s, b') ∧
      findFootprint b' "DA1" =
        some ⟨mm_to_nm ((((30 : ℚ) : ℝ) / 60) * 2 + 0 +
                (rotate_offset 0 5 (-((0 : ℚ) : ℝ))).1),
              mm_to_nm ((((30 : ℚ) : ℝ) / 60) * 2 + 0 +
                (rotate_offset 0 5 (-((0 : ℚ) : ℝ))).2),
              (0 : ℝ) - ((0 : ℚ) : ℝ), Layer.BCu⟩ :=
  placement_position_formula.2.1
    ⟨[("DA1", ⟨0, 0, 0, Layer.FCu⟩)], fun _ => none⟩
    ⟨"A1", 30, 30, 1, 1, 0, 1/2, 1/2⟩
    ⟨"Switch", "SW\x7b\x7d", 0, 0, 0, "Top", false⟩
    ⟨"Diode", "D\x7b\x7d", 0, 5, 0, "Bottom", true⟩
    2 2 60 0 0 ⟨0, 0, 0, Layer.FCu⟩ rfl rfl (by norm_num) rfl rfl
